import Mathlib

/-!
Shallow embedding of the shape-tracking core of the `lxns` repository
(`src/app/circle.py`, `src/app/rectangle.py`, `src/app/tracker.py`).

Modelling conventions:
* Python `int` is `Int`; Python `float` is the inductive `PyFloat` below
  (NaN, the two infinities, and finite values modelled as rationals).
* A color argument is `Option (List Chan)`: `none` is Python `None`,
  `some cs` a tuple whose channels may be ints, floats or anything else.
* `Circle.are_colors_similar` returns Python `None` or a *numpy* `bool_`
  (the value of `np.all`), never a Python `bool`; the inductive `PyVal`
  keeps the three kinds apart because `same_circle` tests its result with
  the identity check `is False`, which only the Python `False` singleton
  satisfies.
* Euclidean distances are carried as their exact squares (`distSq`):
  `np.sqrt d ≤ t` for a nonnegative integer `d` and integer threshold `t`
  iff `0 ≤ t ∧ d ≤ t^2`, and squaring is injective on nonnegatives, so
  every comparison and equality the source makes on distances is preserved.
* Code that can raise returns `Except String _`.
-/

namespace Lxns

/-- A Python float: NaN, ±infinity, or a finite value (as an exact rational). -/
inductive PyFloat where
  | nan
  | inf
  | ninf
  | val (q : ℚ)
  deriving DecidableEq, Repr

namespace PyFloat

/-- IEEE-style `≤` on Python floats: any comparison with NaN is false. -/
def le : PyFloat → PyFloat → Bool
  | .nan, _ => false
  | _, .nan => false
  | .ninf, _ => true
  | _, .ninf => false
  | _, .inf => true
  | .inf, _ => false
  | .val a, .val b => decide (a ≤ b)

/-- IEEE-style subtraction (only the finite case is ever reached under the
validity guard of `are_colors_similar`). -/
def sub : PyFloat → PyFloat → PyFloat
  | .val a, .val b => .val (a - b)
  | .nan, _ => .nan
  | _, .nan => .nan
  | .inf, .inf => .nan
  | .ninf, .ninf => .nan
  | .inf, _ => .inf
  | .ninf, _ => .ninf
  | .val _, .inf => .ninf
  | .val _, .ninf => .inf

/-- `np.abs` on a Python float. -/
def pabs : PyFloat → PyFloat
  | .nan => .nan
  | .inf => .inf
  | .ninf => .inf
  | .val q => .val |q|

end PyFloat

/-- One channel of a color tuple: a Python float, a Python int, or some
other object (e.g. a string). -/
inductive Chan where
  | cfloat (f : PyFloat)
  | cint (n : Int)
  | other
  deriving DecidableEq, Repr

/-- The Python values `are_colors_similar` can return and that the merge
predicates inspect: `None`, a genuine Python `bool`, or a numpy `bool_`.
`np.all` yields a numpy `bool_`, which is a different object from the
Python singletons `True`/`False`. -/
inductive PyVal where
  | pyNone
  | pyBool (b : Bool)
  | npBool (b : Bool)
  deriving DecidableEq, Repr

/-- The Python identity test `v is False`: true only for the `False`
singleton, not for `None` and not for `np.bool_(False)`. -/
def PyVal.isFalse : PyVal → Bool
  | .pyBool false => true
  | _ => false

/-- Python truthiness (`bool(v)`): `None` is falsy; both Python and numpy
bools convert to their value. -/
def PyVal.truthy : PyVal → Bool
  | .pyNone => false
  | .pyBool b => b
  | .npBool b => b

/-- A Python color value: `None` or a tuple of channels. -/
abbrev PyColor := Option (List Chan)

/-- `Circle.filter_nan`, non-raising core: walking the tuple, return `None`
as soon as a channel is not a float or is NaN, else keep the floats. -/
def filterNanCore : List Chan → PyColor
  | [] => some []
  | .cfloat .nan :: _ => none
  | .cfloat f :: rest => (filterNanCore rest).map (fun l => .cfloat f :: l)
  | .cint _ :: _ => none
  | .other :: _ => none

/-- `Circle.filter_nan` as in the source: `for x in color` raises
`TypeError` when `color` is `None` (it is not iterable). -/
def filter_nan : PyColor → Except String PyColor
  | none => .error "TypeError: NoneType object is not iterable"
  | some cs => .ok (filterNanCore cs)

/-- `Circle.is_valid_color`: a tuple of exactly 3 channels, each an
`isinstance(c, float)` with `0 <= c <= 255` (comparisons on a NaN or
infinite float are false, so only finite in-range floats pass). -/
def is_valid_color : PyColor → Bool
  | none => false
  | some cs =>
      decide (cs.length = 3) &&
      cs.all fun c =>
        match c with
        | .cfloat f => PyFloat.le (.val 0) f && PyFloat.le f (.val 255)
        | _ => false

/-- The value `np.array` extracts from a channel for the subtraction in
`are_colors_similar` (only float channels ever reach it, because both
colors passed `is_valid_color`). -/
def chanVal : Chan → PyFloat
  | .cfloat f => f
  | .cint n => .val n
  | .other => .nan

/-- `Circle.are_colors_similar`: `None` if either color is invalid,
otherwise the numpy bool `np.all(np.abs(c1 - c2) <= tolerance)`. -/
def are_colors_similar (color1 color2 : PyColor) (tolerance : Int) : PyVal :=
  if is_valid_color color1 && is_valid_color color2 then
    match color1, color2 with
    | some l1, some l2 =>
        .npBool ((List.zipWith
          (fun a b =>
            PyFloat.le (PyFloat.pabs (PyFloat.sub (chanVal a) (chanVal b)))
              (.val tolerance))
          l1 l2).all id)
    | _, _ => .pyNone
  else .pyNone

/-- One trajectory entry of a circle (`self.data` element). The seeding
entry has no `"distance"` key (`distSq = none`); `distSq` carries the
square of the stored float distance. -/
structure CDataRec where
  x : Int
  y : Int
  frame : Int
  radius : Int
  distSq : Option Int
  color : PyColor
  deriving DecidableEq, Repr

/-- The `Circle` object: current position, radius, color, frame, and the
trajectory list. -/
structure Circle where
  x : Int
  y : Int
  radius : Int
  color : PyColor
  frame : Int
  data : List CDataRec
  deriving DecidableEq, Repr

namespace Circle

/-- `Circle.__init__`: normalize the color via `filter_nan` (raising on
`None`) and seed the trajectory with one record, y flipped. -/
def mk_circle (x y radius : Int) (color : PyColor) (frame : Int)
    (video_height : Int) : Except String Circle := do
  let c ← filter_nan color
  .ok { x := x, y := y, radius := radius, color := c, frame := frame,
        data := [{ x := x, y := video_height - y, frame := frame,
                   radius := radius, distSq := none, color := c }] }

/-- `Circle.are_circles_same`: squared center distance and radius
difference against the thresholds; `some distSq` on match, `none` for the
Python `False`. (`np.sqrt dsq ≤ t ↔ 0 ≤ t ∧ dsq ≤ t^2`.) -/
def are_circles_same (self other : Circle)
    (distance_threshold radius_threshold : Int) : Option Int :=
  let dsq := (other.x - self.x) ^ 2 + (other.y - self.y) ^ 2
  if 0 ≤ distance_threshold && dsq ≤ distance_threshold ^ 2 &&
      |other.radius - self.radius| ≤ radius_threshold then
    some dsq
  else none

/-- `Circle.same_circle`, as a pure state-passing function: the returned
`Bool` is the Python return value and the returned `Circle` the object
after the call. Note the color test is `… is False`, which no value
`are_colors_similar` returns can satisfy. -/
def same_circle (self other : Circle) (video_height : Int) : Bool × Circle :=
  if other.frame ≤ self.frame then (false, self)
  else if 20 < other.frame - self.frame then (false, self)
  else
    match are_circles_same self other 50 17 with
    | none => (false, self)
    | some dsq =>
      if (are_colors_similar self.color other.color 30).isFalse then
        (false, self)
      else
        (true,
         { self with
             x := other.x, y := other.y, frame := other.frame,
             data := self.data ++
               [{ x := other.x, y := video_height - other.y,
                  frame := other.frame, radius := other.radius,
                  distSq := some dsq, color := other.color }] })

end Circle

/-- One trajectory entry of a rectangle (`self.data` element of
`Rectangle`). -/
structure RDataRec where
  x : Int
  y : Int
  width : Int
  height : Int
  frame : Int
  distSq : Option Int
  color : PyColor
  deriving DecidableEq, Repr

/-- The `Rectangle` object: current position, extents, color, frame, and
the trajectory list. -/
structure Rectangle where
  x : Int
  y : Int
  width : Int
  height : Int
  color : PyColor
  frame : Int
  data : List RDataRec
  deriving DecidableEq, Repr

namespace Rectangle

/-- `Rectangle.__init__`: normalize the color via `filter_nan` (raising on
`None`) and seed the trajectory with one record, y flipped. -/
def mk_rectangle (x y width height : Int) (color : PyColor) (frame : Int)
    (video_height : Int) : Except String Rectangle := do
  let c ← filter_nan color
  .ok { x := x, y := y, width := width, height := height, color := c,
        frame := frame,
        data := [{ x := x, y := video_height - y, width := width,
                   height := height, frame := frame, distSq := none,
                   color := c }] }

/-- `Rectangle.are_rectangles_same`: centers via Python floor division
(`w // 2`), squared center distance and max extent difference against the
thresholds; `some distSq` on match, `none` for the Python `False`. -/
def are_rectangles_same (self rect : Rectangle)
    (distance_threshold size_diff_threshold : Int) : Option Int :=
  let c1x := self.x + Int.fdiv self.width 2
  let c1y := self.y + Int.fdiv self.height 2
  let c2x := rect.x + Int.fdiv rect.width 2
  let c2y := rect.y + Int.fdiv rect.height 2
  let dsq := (c2x - c1x) ^ 2 + (c2y - c1y) ^ 2
  let size_diff := max |self.width - rect.width| |self.height - rect.height|
  if 0 ≤ distance_threshold && dsq ≤ distance_threshold ^ 2 &&
      size_diff ≤ size_diff_threshold then
    some dsq
  else none

/-- `Rectangle.same_rectangle`, pure state passing. The color test here is
truthiness (`if not are_colors_similar(...)`), so both `None` and a falsy
numpy bool reject. On success the source's tuple unpacking has the
left-hand side `self.x, self.y, self.height, self.width, self.frame`
against the right-hand side `x, y, width, height, frame`, so the entity's
height receives the observation's width and its width the observation's
height (a swap, invisible only for square observations); the appended
record stores `self.color` — the entity's own (never updated) color — not
the observation's. -/
def same_rectangle (self other : Rectangle) (video_height : Int) :
    Bool × Rectangle :=
  if other.frame ≤ self.frame then (false, self)
  else if 20 < other.frame - self.frame then (false, self)
  else
    match are_rectangles_same self other 40 5 with
    | none => (false, self)
    | some dsq =>
      if !(are_colors_similar self.color other.color 30).truthy then
        (false, self)
      else
        (true,
         { self with
             x := other.x, y := other.y, height := other.width,
             width := other.height, frame := other.frame,
             data := self.data ++
               [{ x := other.x, y := video_height - other.y,
                  width := other.width, height := other.height,
                  frame := other.frame, distSq := some dsq,
                  color := self.color }] })

end Rectangle

/-- A JSON value as written by the two save methods: the nested trajectory
lists are kept structured. -/
inductive JVal where
  | jint (n : Int)
  | jstr (s : String)
  | jcolor (c : PyColor)
  | jcircleData (d : List CDataRec)
  | jrectData (d : List RDataRec)
  deriving DecidableEq, Repr

/-- `Circle.save_circle`: the pair (file name, top-level JSON dictionary in
insertion order). The dictionary repeats the generated filename as its
`"filename"` entry. -/
def Circle.save_circle (self : Circle) (name : Int) :
    String × List (String × JVal) :=
  let filename := "circle_data_" ++ toString name ++ ".json"
  (filename,
   [("filename", .jstr filename),
    ("radius", .jint self.radius),
    ("color", .jcolor self.color),
    ("data", .jcircleData self.data)])

/-- `Rectangle.save_rectangle`: the pair (file name, top-level JSON
dictionary in insertion order). Unlike the circle record, the dictionary
has no `"filename"` entry. -/
def Rectangle.save_rectangle (self : Rectangle) (name : Int) :
    String × List (String × JVal) :=
  let filename := "rectangle_data_" ++ toString name ++ ".json"
  (filename,
   [("width", .jint self.width),
    ("height", .jint self.height),
    ("color", .jcolor self.color),
    ("data", .jrectData self.data)])

/-- The scan inside `Tracker.process_circles`:
`any(circle.same_circle(new_circle, h) for circle in self.circles)`.
The generator attempts the merge on each registered circle in order and
short-circuits at the first `True`; circles after it are never attempted.
Returns the `any` result and the registry after the mutating attempts. -/
def scan_circles : List Circle → Circle → Int → Bool × List Circle
  | [], _, _ => (false, [])
  | e :: es, o, vh =>
    match Circle.same_circle e o vh with
    | (true, e') => (true, e' :: es)
    | (false, e') =>
      let r := scan_circles es o vh
      (r.1, e' :: r.2)

/-- One observation's ingestion in `Tracker.process_circles`: if no
registered circle accepted the merge, append the new circle. -/
def ingest_circle (es : List Circle) (o : Circle) (vh : Int) : List Circle :=
  let r := scan_circles es o vh
  if r.1 then r.2 else r.2 ++ [o]

/-- The scan inside `Tracker.process_rectangles`: the explicit `for` loop
with `break` at the first accepted merge. -/
def scan_rectangles : List Rectangle → Rectangle → Int → Bool × List Rectangle
  | [], _, _ => (false, [])
  | e :: es, o, vh =>
    match Rectangle.same_rectangle e o vh with
    | (true, e') => (true, e' :: es)
    | (false, e') =>
      let r := scan_rectangles es o vh
      (r.1, e' :: r.2)

/-- One observation's ingestion in `Tracker.process_rectangles`: if no
registered rectangle accepted the merge (`is_new_rectangle`), append. -/
def ingest_rectangle (es : List Rectangle) (o : Rectangle) (vh : Int) :
    List Rectangle :=
  let r := scan_rectangles es o vh
  if r.1 then r.2 else r.2 ++ [o]

/-- A raw circle candidate for one frame, as produced by the detector code
in `process_circles` after its bounds/region checks: center, radius and
the sampled average color (always a tuple, never `None`). -/
structure CircleCand where
  cx : Int
  cy : Int
  cr : Int
  ccolor : List Chan
  deriving DecidableEq, Repr

/-- A raw rectangle candidate for one frame, from the contour loop in
`process_rectangles` (already filtered by `w == h` there). `wIsNotH`
records the outcome of the later CPython identity test `w is not h`,
which for equal ints outside the small-int cache may be `true`. -/
structure RectCand where
  rx : Int
  ry : Int
  rw : Int
  rh : Int
  rcolor : List Chan
  wIsNotH : Bool
  deriving DecidableEq, Repr

/-- Constructing the `Circle` observation for a candidate (the
`Circle(...)` call in `process_circles`); the color is a tuple, so
`filter_nan` cannot raise and `filterNanCore` gives its value. -/
def build_circle (c : CircleCand) (frame vh : Int) : Circle :=
  let col := filterNanCore c.ccolor
  { x := c.cx, y := c.cy, radius := c.cr, color := col, frame := frame,
    data := [{ x := c.cx, y := vh - c.cy, frame := frame, radius := c.cr,
               distSq := none, color := col }] }

/-- Constructing the `Rectangle` observation for a candidate (the
`Rectangle(...)` call in `process_rectangles`). -/
def build_rectangle (c : RectCand) (frame vh : Int) : Rectangle :=
  let col := filterNanCore c.rcolor
  { x := c.rx, y := c.ry, width := c.rw, height := c.rh, color := col,
    frame := frame,
    data := [{ x := c.rx, y := vh - c.ry, width := c.rw, height := c.rh,
               frame := frame, distSq := none, color := col }] }

/-- `Tracker.process_circles` over one frame's candidate list. -/
def process_circles (vh frame : Int) (cands : List CircleCand)
    (es : List Circle) : List Circle :=
  cands.foldl (fun es c => ingest_circle es (build_circle c frame vh) vh) es

/-- `Tracker.process_rectangles` over one frame's candidate list; a
candidate with `w is not h` true is skipped (`continue`) before the scan. -/
def process_rectangles (vh frame : Int) (cands : List RectCand)
    (es : List Rectangle) : List Rectangle :=
  cands.foldl
    (fun es c =>
      if c.wIsNotH then es
      else ingest_rectangle es (build_rectangle c frame vh) vh)
    es

/-- The mutable registry state of `Tracker`. -/
structure TrackerState where
  circles : List Circle
  rectangles : List Rectangle
  deriving DecidableEq, Repr

/-- The detections of one successfully decoded frame. -/
structure FrameDets where
  circleCands : List CircleCand
  rectCands : List RectCand
  deriving DecidableEq, Repr

/-- One iteration body of `Tracker.track`: circles then rectangles. -/
def process_frame (vh frame : Int) (d : FrameDets) (t : TrackerState) :
    TrackerState :=
  { circles := process_circles vh frame d.circleCands t.circles,
    rectangles := process_rectangles vh frame d.rectCands t.rectangles }

/-- The `while video.isOpened() and frame_counter < 1000` loop of
`Tracker.track`. The video is modelled as the list of `video.read()`
outcomes still ahead: `some d` a decoded frame's detections, `none` a
failed read (`ret` false or a `ValueError`), and the list's end standing
for a source that yields no further successful reads. Each iteration
first checks the counter, then increments it, then reads; a failed read
breaks out of the loop. Returns the final state and counter. -/
def track_loop (vh : Int) :
    List (Option FrameDets) → Nat → TrackerState → TrackerState × Nat
  | [], counter, t =>
    if counter < 1000 then (t, counter + 1) else (t, counter)
  | f :: rest, counter, t =>
    if counter < 1000 then
      match f with
      | none => (t, counter + 1)
      | some d => track_loop vh rest (counter + 1) (process_frame vh (counter + 1) d t)
    else (t, counter)

/-- The circle half of the persistence epilogue of `Tracker.track`:
`x = 0; for circle in self.circles: x += 1; circle.save_circle(x)`. -/
def save_loop_circles : List Circle → Int → List (String × List (String × JVal))
  | [], _ => []
  | c :: cs, x => c.save_circle (x + 1) :: save_loop_circles cs (x + 1)

/-- The rectangle half of the persistence epilogue of `Tracker.track`. -/
def save_loop_rectangles :
    List Rectangle → Int → List (String × List (String × JVal))
  | [], _ => []
  | r :: rs, x => r.save_rectangle (x + 1) :: save_loop_rectangles rs (x + 1)

/-- The persistence epilogue of `Tracker.track`: every circle then every
rectangle is saved under a 1-based sequence index (`x` starts at 0 and is
incremented before each save). -/
def save_all (t : TrackerState) :
    List (String × List (String × JVal)) × List (String × List (String × JVal)) :=
  (save_loop_circles t.circles 0, save_loop_rectangles t.rectangles 0)

/-- `Tracker.track`: run the ingestion loop from an empty registry, then
persist every accumulated entity. -/
def track (vh : Int) (reads : List (Option FrameDets)) :
    List (String × List (String × JVal)) × List (String × List (String × JVal)) :=
  save_all (track_loop vh reads 0 { circles := [], rectangles := [] }).1

/-! ### Helper lemmas -/

/-- `|a - b| = |b - a|` also holds for IEEE floats, NaN and infinities
included. -/
theorem PyFloat.pabs_sub_comm (a b : PyFloat) :
    PyFloat.pabs (PyFloat.sub a b) = PyFloat.pabs (PyFloat.sub b a) := by
  cases a <;> cases b <;> simp [PyFloat.sub, PyFloat.pabs, abs_sub_comm]

/-- `are_colors_similar` returns `None` or a numpy bool, so the Python
identity test `… is False` never succeeds on its result. -/
theorem are_colors_similar_isFalse (c1 c2 : PyColor) (t : Int) :
    (are_colors_similar c1 c2 t).isFalse = false := by
  unfold are_colors_similar
  split
  · split <;> rfl
  · rfl

/-- Every failure path of `same_circle` returns before mutating: the
returned object is the receiver unchanged, or the call succeeded. -/
theorem Circle.same_circle_spec (s o : Circle) (vh : Int) :
    Circle.same_circle s o vh = (false, s) ∨
      (Circle.same_circle s o vh).1 = true := by
  unfold Circle.same_circle
  split
  · exact Or.inl rfl
  · split
    · exact Or.inl rfl
    · split
      · exact Or.inl rfl
      · split
        · exact Or.inl rfl
        · exact Or.inr rfl

/-- A failed `same_circle` call leaves the circle unchanged. -/
theorem Circle.same_circle_snd_of_fail {s o : Circle} {vh : Int}
    (h : (Circle.same_circle s o vh).1 = false) :
    (Circle.same_circle s o vh).2 = s := by
  rcases Circle.same_circle_spec s o vh with h2 | h2
  · rw [h2]
  · rw [h2] at h
    cases h

/-- Every failure path of `same_rectangle` returns before mutating. -/
theorem Rectangle.same_rectangle_spec (s o : Rectangle) (vh : Int) :
    Rectangle.same_rectangle s o vh = (false, s) ∨
      (Rectangle.same_rectangle s o vh).1 = true := by
  unfold Rectangle.same_rectangle
  split
  · exact Or.inl rfl
  · split
    · exact Or.inl rfl
    · split
      · exact Or.inl rfl
      · split
        · exact Or.inl rfl
        · exact Or.inr rfl

/-- A failed `same_rectangle` call leaves the rectangle unchanged. -/
theorem Rectangle.same_rectangle_snd_of_fail {s o : Rectangle} {vh : Int}
    (h : (Rectangle.same_rectangle s o vh).1 = false) :
    (Rectangle.same_rectangle s o vh).2 = s := by
  rcases Rectangle.same_rectangle_spec s o vh with h2 | h2
  · rw [h2]
  · rw [h2] at h
    cases h

/-! ### Claims -/

/-- C3: a merge attempt with `observation.frame ≤ entity.currentFrame`
returns failure and leaves the entity (current fields, color and
trajectory) completely unchanged, for circles and rectangles alike. -/
theorem c3_chronology_reject (c o : Circle) (r ro : Rectangle) (vh : Int) :
    (o.frame ≤ c.frame → Circle.same_circle c o vh = (false, c)) ∧
    (ro.frame ≤ r.frame → Rectangle.same_rectangle r ro vh = (false, r)) := by
  constructor
  · intro h
    unfold Circle.same_circle
    rw [if_pos h]
  · intro h
    unfold Rectangle.same_rectangle
    rw [if_pos h]

/-- Witness for C3 at a concrete chronology violation (equal frames). -/
theorem c3_chronology_reject_witness :
    Circle.same_circle
        { x := 1, y := 2, radius := 3, color := none, frame := 5, data := [] }
        { x := 1, y := 2, radius := 3, color := none, frame := 5, data := [] }
        10 =
      (false,
       { x := 1, y := 2, radius := 3, color := none, frame := 5, data := [] }) ∧
    Rectangle.same_rectangle
        { x := 0, y := 0, width := 4, height := 4, color := none, frame := 7,
          data := [] }
        { x := 0, y := 0, width := 4, height := 4, color := none, frame := 6,
          data := [] }
        10 =
      (false,
       { x := 0, y := 0, width := 4, height := 4, color := none, frame := 7,
         data := [] }) := by
  have h := c3_chronology_reject
    { x := 1, y := 2, radius := 3, color := none, frame := 5, data := [] }
    { x := 1, y := 2, radius := 3, color := none, frame := 5, data := [] }
    { x := 0, y := 0, width := 4, height := 4, color := none, frame := 7,
      data := [] }
    { x := 0, y := 0, width := 4, height := 4, color := none, frame := 6,
      data := [] }
    10
  exact ⟨h.1 (by decide), h.2 (by decide)⟩

/-! ### Concrete fixtures shared by counterexamples and witnesses -/

/-- A valid red color tuple `(255.0, 0.0, 0.0)`. -/
def redChans : List Chan := [.cfloat (.val 255), .cfloat (.val 0), .cfloat (.val 0)]

/-- A valid blue color tuple `(0.0, 0.0, 255.0)`; every channel differs
from `redChans` by more than the tolerance 30. -/
def blueChans : List Chan := [.cfloat (.val 0), .cfloat (.val 0), .cfloat (.val 255)]

/-- A valid color `(250.0, 5.0, 5.0)` within tolerance 30 of `redChans`
but not equal to it. -/
def nearRedChans : List Chan := [.cfloat (.val 250), .cfloat (.val 5), .cfloat (.val 5)]

/-- A red circle entity at (100,200), radius 50, seeded at frame 1. -/
def circleA : Circle :=
  build_circle { cx := 100, cy := 200, cr := 50, ccolor := redChans } 1 1080

/-- A blue circle observation at (105,205), radius 60, frame 2: close to
`circleA` in geometry (squared distance 50, radius gap 10) but with a
thoroughly dissimilar color. -/
def circleB : Circle :=
  build_circle { cx := 105, cy := 205, cr := 60, ccolor := blueChans } 2 1080

/-- A red square entity at (10,20), 100×100, seeded at frame 1. -/
def rectA : Rectangle :=
  build_rectangle
    { rx := 10, ry := 20, rw := 100, rh := 100, rcolor := redChans,
      wIsNotH := false } 1 1080

/-- A near-red square observation at (15,25), 100×100, frame 2: close to
`rectA` in geometry and color (but its color differs from `rectA`'s). -/
def rectB : Rectangle :=
  build_rectangle
    { rx := 15, ry := 25, rw := 100, rh := 100, rcolor := nearRedChans,
      wIsNotH := false } 2 1080

/-- `rectB` with its color replaced by Python `None` (undetermined). -/
def rectNoColor : Rectangle := { rectB with color := none }

/-- C1 counterexample: for the concrete pair `circleA`/`circleB` the color
similarity check yields (numpy) false, yet `same_circle` accepts the
merge — the claim's rejection on a false/unknown color check does not
happen for circles. -/
theorem c1_counterexample :
    are_colors_similar circleA.color circleB.color 30 = .npBool false ∧
    (Circle.same_circle circleA circleB 1080).1 = true := by
  constructor
  · norm_num [are_colors_similar, is_valid_color, circleA, circleB,
      build_circle, filterNanCore, redChans, blueChans, chanVal,
      PyFloat.le, PyFloat.sub, PyFloat.pabs]
  · rfl

/-- C1 as amended: rectangles reject the merge whenever the color check is
false or unknown, but circles never reject on color at all — the circle
code compares the check's result (`None` or a numpy bool) against the
Python `False` singleton, which never matches, so a chronologically and
geometrically acceptable circle observation is always absorbed. -/
theorem c1_amended :
    (∀ (r o : Rectangle) (vh : Int),
        (are_colors_similar r.color o.color 30).truthy = false →
        Rectangle.same_rectangle r o vh = (false, r)) ∧
    (∀ (c o : Circle) (vh d : Int),
        c.frame < o.frame → o.frame - c.frame ≤ 20 →
        Circle.are_circles_same c o 50 17 = some d →
        (Circle.same_circle c o vh).1 = true) := by
  constructor
  · intro r o vh h
    unfold Rectangle.same_rectangle
    split
    · rfl
    · split
      · rfl
      · split
        · rfl
        · rw [h]
          rfl
  · intro c o vh d h1 h2 h3
    unfold Circle.same_circle
    rw [if_neg (not_le.mpr h1), if_neg (by omega : ¬ 20 < o.frame - c.frame)]
    simp [h3, are_colors_similar_isFalse]

/-- Witness for the amended C1: a rectangle merge against an undetermined
color is rejected, and a circle merge with a dissimilar color succeeds. -/
theorem c1_amended_witness :
    Rectangle.same_rectangle rectA rectNoColor 1080 = (false, rectA) ∧
    (Circle.same_circle circleA circleB 1080).1 = true := by
  constructor
  · exact c1_amended.1 rectA rectNoColor 1080 (by decide)
  · exact c1_amended.2 circleA circleB 1080 50 (by decide) (by decide) (by decide)

/-- C2 counterexample: a successful circle merge does not overwrite the
entity's color or radius with the observation's, and a successful
rectangle merge appends a trajectory record carrying the entity's old
color, not the observation's — so the entity's current fields do not all
equal the last-appended record's fields. -/
theorem c2_counterexample :
    (Circle.same_circle circleA circleB 1080).1 = true ∧
    (Circle.same_circle circleA circleB 1080).2.color ≠ circleB.color ∧
    (Circle.same_circle circleA circleB 1080).2.radius ≠ circleB.radius ∧
    (Rectangle.same_rectangle rectA rectB 1080).1 = true ∧
    ((Rectangle.same_rectangle rectA rectB 1080).2.data.getLast?.map
        (fun rec => rec.color)) = some rectA.color ∧
    rectA.color ≠ rectB.color := by
  refine ⟨rfl, by decide, by decide, ?_, ?_, by decide⟩ <;>
    norm_num [Rectangle.same_rectangle, Rectangle.are_rectangles_same,
      are_colors_similar, is_valid_color, rectA, rectB, build_rectangle,
      filterNanCore, redChans, nearRedChans, chanVal, PyFloat.le,
      PyFloat.sub, PyFloat.pabs, PyVal.truthy, List.getLast?]

/-- C2 as amended: on a successful merge the entity's current x, y and
frame are overwritten with the observation's values — and, for
rectangles, the entity's height receives the observation's width and its
width the observation's height (the source's tuple unpacking swaps the
two) — while its color (and a circle's radius) are left unchanged; the
appended circle record carries the observation's fields plus the merge
distance and the flipped y, whereas the appended rectangle record carries
the observation's (unswapped) geometry and frame but the entity's own
color. -/
theorem c2_amended :
    (∀ (c o : Circle) (vh : Int),
        (Circle.same_circle c o vh).1 = true →
        ∃ d, Circle.are_circles_same c o 50 17 = some d ∧
          (Circle.same_circle c o vh).2 =
            { c with
                x := o.x, y := o.y, frame := o.frame,
                data := c.data ++
                  [{ x := o.x, y := vh - o.y, frame := o.frame,
                     radius := o.radius, distSq := some d,
                     color := o.color }] }) ∧
    (∀ (r o : Rectangle) (vh : Int),
        (Rectangle.same_rectangle r o vh).1 = true →
        ∃ d, Rectangle.are_rectangles_same r o 40 5 = some d ∧
          (Rectangle.same_rectangle r o vh).2 =
            { r with
                x := o.x, y := o.y, height := o.width, width := o.height,
                frame := o.frame,
                data := r.data ++
                  [{ x := o.x, y := vh - o.y, width := o.width,
                     height := o.height, frame := o.frame,
                     distSq := some d, color := r.color }] }) := by
  constructor
  · intro c o vh
    unfold Circle.same_circle
    split
    · intro h
      simp at h
    · split
      · intro h
        simp at h
      · split
        · intro h
          simp at h
        · rename_i dsq heq
          split
          · intro h
            simp at h
          · intro _
            exact ⟨dsq, heq, rfl⟩
  · intro r o vh
    unfold Rectangle.same_rectangle
    split
    · intro h
      simp at h
    · split
      · intro h
        simp at h
      · split
        · intro h
          simp at h
        · rename_i dsq heq
          split
          · intro h
            simp at h
          · intro _
            exact ⟨dsq, heq, rfl⟩

/-- Witness for the amended C2: for the concrete successful circle merge
the updated entity keeps its old color and radius while taking the
observation's position and frame. -/
theorem c2_amended_witness :
    (Circle.same_circle circleA circleB 1080).2.color = circleA.color ∧
    (Circle.same_circle circleA circleB 1080).2.radius = circleA.radius ∧
    (Circle.same_circle circleA circleB 1080).2.frame = circleB.frame := by
  obtain ⟨d, hd, hupd⟩ := c2_amended.1 circleA circleB 1080 (by decide)
  rw [hupd]
  exact ⟨rfl, rfl, rfl⟩

/-- A near-red circle observation geometrically close to `circleA` with a
frame gap of exactly 21. -/
def circleGap21 : Circle :=
  build_circle { cx := 105, cy := 205, cr := 50, ccolor := nearRedChans } 22 1080

/-- A near-red circle observation geometrically close to `circleA` with a
frame gap of exactly 20. -/
def circleGap20 : Circle :=
  build_circle { cx := 105, cy := 205, cr := 50, ccolor := nearRedChans } 21 1080

/-- A near-red square observation geometrically close to `rectA` with a
frame gap of exactly 21. -/
def rectGap21 : Rectangle :=
  build_rectangle
    { rx := 15, ry := 25, rw := 100, rh := 100, rcolor := nearRedChans,
      wIsNotH := false } 22 1080

/-- A near-red square observation geometrically close to `rectA` with a
frame gap of exactly 20. -/
def rectGap20 : Rectangle :=
  build_rectangle
    { rx := 15, ry := 25, rw := 100, rh := 100, rcolor := nearRedChans,
      wIsNotH := false } 21 1080

/-- C4: for an entity and observation within the geometric and color
thresholds, the merge fails at a frame gap of exactly 21 and succeeds at
a gap of exactly 20, for circles and rectangles alike. -/
theorem c4_window_boundary :
    (∀ (c o : Circle) (vh d : Int),
        Circle.are_circles_same c o 50 17 = some d →
        (are_colors_similar c.color o.color 30).truthy = true →
        ((o.frame = c.frame + 21 → (Circle.same_circle c o vh).1 = false) ∧
         (o.frame = c.frame + 20 → (Circle.same_circle c o vh).1 = true))) ∧
    (∀ (r o : Rectangle) (vh d : Int),
        Rectangle.are_rectangles_same r o 40 5 = some d →
        (are_colors_similar r.color o.color 30).truthy = true →
        ((o.frame = r.frame + 21 →
            (Rectangle.same_rectangle r o vh).1 = false) ∧
         (o.frame = r.frame + 20 →
            (Rectangle.same_rectangle r o vh).1 = true))) := by
  constructor
  · intro c o vh d hgeom _
    constructor
    · intro h21
      unfold Circle.same_circle
      rw [if_neg (by omega : ¬ o.frame ≤ c.frame),
        if_pos (by omega : 20 < o.frame - c.frame)]
    · intro h20
      unfold Circle.same_circle
      rw [if_neg (by omega : ¬ o.frame ≤ c.frame),
        if_neg (by omega : ¬ 20 < o.frame - c.frame)]
      simp [hgeom, are_colors_similar_isFalse]
  · intro r o vh d hgeom hcol
    constructor
    · intro h21
      unfold Rectangle.same_rectangle
      rw [if_neg (by omega : ¬ o.frame ≤ r.frame),
        if_pos (by omega : 20 < o.frame - r.frame)]
    · intro h20
      unfold Rectangle.same_rectangle
      rw [if_neg (by omega : ¬ o.frame ≤ r.frame),
        if_neg (by omega : ¬ 20 < o.frame - r.frame)]
      simp [hgeom, hcol]

/-- Witness for C4 at concrete in-threshold pairs: gap 21 fails and gap 20
succeeds, for a circle and for a rectangle. -/
theorem c4_window_boundary_witness :
    (Circle.same_circle circleA circleGap21 1080).1 = false ∧
    (Circle.same_circle circleA circleGap20 1080).1 = true ∧
    (Rectangle.same_rectangle rectA rectGap21 1080).1 = false ∧
    (Rectangle.same_rectangle rectA rectGap20 1080).1 = true := by
  have hcol : (are_colors_similar (some redChans) (some nearRedChans) 30).truthy
      = true := by
    norm_num [are_colors_similar, is_valid_color, redChans, nearRedChans,
      chanVal, PyFloat.le, PyFloat.sub, PyFloat.pabs, PyVal.truthy]
  exact ⟨(c4_window_boundary.1 circleA circleGap21 1080 50 (by decide) hcol).1
      (by decide),
    (c4_window_boundary.1 circleA circleGap20 1080 50 (by decide) hcol).2
      (by decide),
    (c4_window_boundary.2 rectA rectGap21 1080 50 (by decide) hcol).1
      (by decide),
    (c4_window_boundary.2 rectA rectGap20 1080 50 (by decide) hcol).2
      (by decide)⟩
/-- If every registered circle rejects the observation, the scan reports
no match and leaves the registry unchanged. -/
theorem scan_circles_all_fail {o : Circle} {vh : Int} :
    ∀ {es : List Circle},
      (∀ e ∈ es, (Circle.same_circle e o vh).1 = false) →
      scan_circles es o vh = (false, es) := by
  intro es
  induction es with
  | nil => intro _; rfl
  | cons e es ih =>
    intro h
    have he := h e (by simp)
    have hrest : ∀ x ∈ es, (Circle.same_circle x o vh).1 = false :=
      fun x hx => h x (by simp [hx])
    rcases Circle.same_circle_spec e o vh with hp | hp
    · simp [scan_circles, hp, ih hrest]
    · rw [hp] at he
      cases he

/-- If the circles before position `i` all reject and the one at `i`
accepts, the scan stops there: the accepting circle is replaced by its
merged update and everything else is untouched. -/
theorem scan_circles_first_accept {o : Circle} {vh : Int} :
    ∀ (l1 : List Circle) (e : Circle) (l2 : List Circle),
      (∀ x ∈ l1, (Circle.same_circle x o vh).1 = false) →
      (Circle.same_circle e o vh).1 = true →
      scan_circles (l1 ++ e :: l2) o vh =
        (true, l1 ++ (Circle.same_circle e o vh).2 :: l2) := by
  intro l1
  induction l1 with
  | nil =>
    intro e l2 _ hacc
    have hp : Circle.same_circle e o vh =
        (true, (Circle.same_circle e o vh).2) := by
      rw [← hacc]
    simp only [List.nil_append, scan_circles]
    rw [hp]
  | cons a l1 ih =>
    intro e l2 hfail hacc
    have ha := hfail a (by simp)
    rcases Circle.same_circle_spec a o vh with hp | hp
    · have hrest : ∀ x ∈ l1, (Circle.same_circle x o vh).1 = false :=
        fun x hx => hfail x (by simp [hx])
      simp [scan_circles, hp, ih e l2 hrest hacc]
    · rw [hp] at ha
      cases ha

/-- If every registered rectangle rejects the observation, the scan
reports no match and leaves the registry unchanged. -/
theorem scan_rectangles_all_fail {o : Rectangle} {vh : Int} :
    ∀ {es : List Rectangle},
      (∀ e ∈ es, (Rectangle.same_rectangle e o vh).1 = false) →
      scan_rectangles es o vh = (false, es) := by
  intro es
  induction es with
  | nil => intro _; rfl
  | cons e es ih =>
    intro h
    have he := h e (by simp)
    have hrest : ∀ x ∈ es, (Rectangle.same_rectangle x o vh).1 = false :=
      fun x hx => h x (by simp [hx])
    rcases Rectangle.same_rectangle_spec e o vh with hp | hp
    · simp [scan_rectangles, hp, ih hrest]
    · rw [hp] at he
      cases he

/-- First-match property of the rectangle scan. -/
theorem scan_rectangles_first_accept {o : Rectangle} {vh : Int} :
    ∀ (l1 : List Rectangle) (e : Rectangle) (l2 : List Rectangle),
      (∀ x ∈ l1, (Rectangle.same_rectangle x o vh).1 = false) →
      (Rectangle.same_rectangle e o vh).1 = true →
      scan_rectangles (l1 ++ e :: l2) o vh =
        (true, l1 ++ (Rectangle.same_rectangle e o vh).2 :: l2) := by
  intro l1
  induction l1 with
  | nil =>
    intro e l2 _ hacc
    have hp : Rectangle.same_rectangle e o vh =
        (true, (Rectangle.same_rectangle e o vh).2) := by
      rw [← hacc]
    simp only [List.nil_append, scan_rectangles]
    rw [hp]
  | cons a l1 ih =>
    intro e l2 hfail hacc
    have ha := hfail a (by simp)
    rcases Rectangle.same_rectangle_spec a o vh with hp | hp
    · have hrest : ∀ x ∈ l1, (Rectangle.same_rectangle x o vh).1 = false :=
        fun x hx => hfail x (by simp [hx])
      simp [scan_rectangles, hp, ih e l2 hrest hacc]
    · rw [hp] at ha
      cases ha

/-- C5: ingestion scans the registry in registration order and stops at
the first entity that accepts — the earliest-created accepting entity is
the only one mutated and later entities are never touched; if every
entity rejects, the registry is unchanged except that the new observation
is appended as a fresh entity, for circles and rectangles alike. -/
theorem c5_first_match_ingestion :
    (∀ (es : List Circle) (o : Circle) (vh : Int),
        (∀ e ∈ es, (Circle.same_circle e o vh).1 = false) →
        ingest_circle es o vh = es ++ [o]) ∧
    (∀ (l1 : List Circle) (e : Circle) (l2 : List Circle) (o : Circle)
        (vh : Int),
        (∀ x ∈ l1, (Circle.same_circle x o vh).1 = false) →
        (Circle.same_circle e o vh).1 = true →
        ingest_circle (l1 ++ e :: l2) o vh =
          l1 ++ (Circle.same_circle e o vh).2 :: l2) ∧
    (∀ (es : List Rectangle) (o : Rectangle) (vh : Int),
        (∀ e ∈ es, (Rectangle.same_rectangle e o vh).1 = false) →
        ingest_rectangle es o vh = es ++ [o]) ∧
    (∀ (l1 : List Rectangle) (e : Rectangle) (l2 : List Rectangle)
        (o : Rectangle) (vh : Int),
        (∀ x ∈ l1, (Rectangle.same_rectangle x o vh).1 = false) →
        (Rectangle.same_rectangle e o vh).1 = true →
        ingest_rectangle (l1 ++ e :: l2) o vh =
          l1 ++ (Rectangle.same_rectangle e o vh).2 :: l2) := by
  refine ⟨?_, ?_, ?_, ?_⟩
  · intro es o vh h
    unfold ingest_circle
    rw [scan_circles_all_fail h]
    simp
  · intro l1 e l2 o vh hfail hacc
    unfold ingest_circle
    rw [scan_circles_first_accept l1 e l2 hfail hacc]
    simp
  · intro es o vh h
    unfold ingest_rectangle
    rw [scan_rectangles_all_fail h]
    simp
  · intro l1 e l2 o vh hfail hacc
    unfold ingest_rectangle
    rw [scan_rectangles_first_accept l1 e l2 hfail hacc]
    simp

/-- Witness for C5: a rejected observation is appended after the existing
registry, and an accepted one replaces exactly the accepting entity. -/
theorem c5_first_match_ingestion_witness :
    ingest_rectangle [rectA] rectNoColor 1080 = [rectA, rectNoColor] ∧
    ingest_circle [circleA] circleB 1080 =
      [(Circle.same_circle circleA circleB 1080).2] := by
  constructor
  · exact (c5_first_match_ingestion.2.2.1 [rectA] rectNoColor 1080 (by decide))
  · exact (c5_first_match_ingestion.2.1 [] circleA [] circleB 1080
      (by simp) (by decide))
/-- C6: `filter_nan` never raises on a tuple argument — wrong arity,
non-float channels and NaN channels are all normalized to an absent
color — but on the `None` color (the declared default of the
constructors) it raises a `TypeError`, because `for x in color` iterates
its argument. -/
theorem c6_filter_nan_raises_on_none :
    filter_nan none =
      Except.error "TypeError: NoneType object is not iterable" ∧
    (∀ cs : List Chan, filter_nan (some cs) = Except.ok (filterNanCore cs)) ∧
    filterNanCore [.cint 1, .cfloat (.val 2), .cfloat (.val 3)] = none ∧
    filterNanCore [.cfloat .nan, .cfloat (.val 2), .cfloat (.val 3)] = none ∧
    filterNanCore [.cfloat (.val 1), .cfloat (.val 2)] =
      some [.cfloat (.val 1), .cfloat (.val 2)] :=
  ⟨rfl, fun _ => rfl, rfl, rfl, rfl⟩

/-- The color-validity predicate exactly as §4.1 of the spec words it:
true iff the color has exactly 3 channels, each a finite real number in
[0,255], whether represented as an integer or a float. Written from the
spec for comparison against the implementation's `is_valid_color`. -/
def spec_color_valid : PyColor → Bool
  | none => false
  | some cs =>
      decide (cs.length = 3) &&
      cs.all fun c =>
        match c with
        | .cfloat (.val q) => decide ((0 : ℚ) ≤ q ∧ q ≤ 255)
        | .cint n => decide ((0 : Int) ≤ n ∧ n ≤ 255)
        | _ => false

/-- C7 counterexample: the integer color (100, 100, 100) has 3 channels,
each a finite real number in [0,255], so the claim says it is valid; the
implementation's `isinstance(c, float)` test rejects it. -/
theorem c7_counterexample :
    spec_color_valid (some [.cint 100, .cint 100, .cint 100]) = true ∧
    is_valid_color (some [.cint 100, .cint 100, .cint 100]) = false := by
  decide

/-- A single channel passes the implementation's validity test iff it is
a Python float with a finite value in [0,255]. -/
theorem valid_chan_iff (ch : Chan) :
    (match ch with
     | Chan.cfloat f => PyFloat.le (.val 0) f && PyFloat.le f (.val 255)
     | _ => false) = true ↔
    ∃ q : ℚ, ch = Chan.cfloat (.val q) ∧ 0 ≤ q ∧ q ≤ 255 := by
  cases ch with
  | cfloat f => cases f <;> simp [PyFloat.le]
  | cint n => simp
  | other => simp

/-- C7 as amended: `is_valid_color` is true iff the color is a tuple of
exactly 3 channels, each of which is a Python float (not an int) whose
value is finite and in [0,255]. -/
theorem c7_amended (c : PyColor) :
    is_valid_color c = true ↔
    ∃ l, c = some l ∧ l.length = 3 ∧
      ∀ ch ∈ l, ∃ q : ℚ, ch = Chan.cfloat (.val q) ∧ 0 ≤ q ∧ q ≤ 255 := by
  cases c with
  | none => simp [is_valid_color]
  | some cs =>
    simp only [is_valid_color, Bool.and_eq_true, decide_eq_true_eq,
      List.all_eq_true, Option.some.injEq]
    constructor
    · rintro ⟨hlen, hall⟩
      exact ⟨cs, rfl, hlen, fun ch hch => (valid_chan_iff ch).mp (hall ch hch)⟩
    · rintro ⟨l, rfl, hlen, hall⟩
      exact ⟨hlen, fun ch hch => (valid_chan_iff ch).mpr (hall ch hch)⟩

/-- Witness for the amended C7: the red float tuple is valid. -/
theorem c7_amended_witness : is_valid_color (some redChans) = true := by
  refine (c7_amended (some redChans)).mpr ⟨redChans, rfl, by decide, ?_⟩
  intro ch hch
  have h : ch = Chan.cfloat (.val 255) ∨ ch = Chan.cfloat (.val 0) ∨
      ch = Chan.cfloat (.val 0) := by
    simpa [redChans] using hch
  rcases h with rfl | rfl | rfl
  · exact ⟨255, rfl, by norm_num, by norm_num⟩
  · exact ⟨0, rfl, by norm_num, by norm_num⟩
  · exact ⟨0, rfl, by norm_num, by norm_num⟩
/-- C8 counterexample: the rectangle record written by `save_rectangle`
carries width, height, color and trajectory but no `"filename"` (or any
identifier) entry, although the claim asserts one for both kinds. -/
theorem c8_counterexample :
    (Rectangle.save_rectangle rectA 1).1 = "rectangle_data_1.json" ∧
    List.lookup "filename" (Rectangle.save_rectangle rectA 1).2 = none := by
  constructor
  · rfl
  · rfl

/-- Element-wise description of the circle persistence loop: the entity at
position `i` is saved under index `x + i + 1`. -/
theorem save_loop_circles_getElem (cs : List Circle) (x : Int) (i : Nat) :
    (save_loop_circles cs x)[i]? =
      cs[i]?.map (fun c => c.save_circle (x + i + 1)) := by
  induction cs generalizing x i with
  | nil => simp [save_loop_circles]
  | cons c cs ih =>
    cases i with
    | zero => simp [save_loop_circles]
    | succ j =>
      simp only [save_loop_circles, List.getElem?_cons_succ, ih (x + 1) j]
      have h : x + 1 + (j : Int) + 1 = x + ((j : Int) + 1) + 1 := by ring
      simp [h]

/-- Element-wise description of the rectangle persistence loop. -/
theorem save_loop_rectangles_getElem (rs : List Rectangle) (x : Int) (i : Nat) :
    (save_loop_rectangles rs x)[i]? =
      rs[i]?.map (fun r => r.save_rectangle (x + i + 1)) := by
  induction rs generalizing x i with
  | nil => simp [save_loop_rectangles]
  | cons r rs ih =>
    cases i with
    | zero => simp [save_loop_rectangles]
    | succ j =>
      simp only [save_loop_rectangles, List.getElem?_cons_succ, ih (x + 1) j]
      have h : x + 1 + (j : Int) + 1 = x + ((j : Int) + 1) + 1 := by ring
      simp [h]

/-- C8 as amended: each circle is persisted as one record named
`circle_data_<n>.json` that contains the filename, the radius, the color
and the full ordered trajectory; each rectangle is persisted as one
record named `rectangle_data_<n>.json` that contains width, height, color
and the full ordered trajectory but no filename entry; for both kinds the
index `n` of the record at position `i` of the registry is the 1-based
sequence number `i + 1`. -/
theorem c8_amended (c : Circle) (r : Rectangle) (n : Int)
    (t : TrackerState) (i : Nat) :
    Circle.save_circle c n =
      ("circle_data_" ++ toString n ++ ".json",
       [("filename", JVal.jstr ("circle_data_" ++ toString n ++ ".json")),
        ("radius", JVal.jint c.radius),
        ("color", JVal.jcolor c.color),
        ("data", JVal.jcircleData c.data)]) ∧
    Rectangle.save_rectangle r n =
      ("rectangle_data_" ++ toString n ++ ".json",
       [("width", JVal.jint r.width),
        ("height", JVal.jint r.height),
        ("color", JVal.jcolor r.color),
        ("data", JVal.jrectData r.data)]) ∧
    List.lookup "filename" (Rectangle.save_rectangle r n).2 = none ∧
    (save_all t).1[i]? =
      t.circles[i]?.map (fun c => c.save_circle ((i : Int) + 1)) ∧
    (save_all t).2[i]? =
      t.rectangles[i]?.map (fun r => r.save_rectangle ((i : Int) + 1)) := by
  refine ⟨rfl, rfl, rfl, ?_, ?_⟩
  · rw [show (save_all t).1 = save_loop_circles t.circles 0 from rfl,
      save_loop_circles_getElem]
    simp
  · rw [show (save_all t).2 = save_loop_rectangles t.rectangles 0 from rfl,
      save_loop_rectangles_getElem]
    simp

/-- C9: `are_colors_similar` is symmetric in its two colors, for every
tolerance, whether the result is true, false, or unknown. -/
theorem c9_colors_similar_symm (c1 c2 : PyColor) (tol : Int) :
    are_colors_similar c1 c2 tol = are_colors_similar c2 c1 tol := by
  rcases c1 with _ | l1 <;> rcases c2 with _ | l2
  · rfl
  · simp [are_colors_similar, is_valid_color]
  · simp [are_colors_similar, is_valid_color]
  · unfold are_colors_similar
    by_cases h1 : is_valid_color (some l1) = true <;>
      by_cases h2 : is_valid_color (some l2) = true <;>
        simp [h1, h2]
    rw [List.zipWith_comm_of_comm]
    intro x y
    rw [PyFloat.pabs_sub_comm]
/-- Reads beyond position `1000 - c` of the remaining stream can never
influence the tracking loop entered with counter `c`. -/
theorem track_loop_take (vh : Int) :
    ∀ (reads : List (Option FrameDets)) (c : Nat) (t : TrackerState),
      track_loop vh reads c t = track_loop vh (reads.take (1000 - c)) c t := by
  intro reads
  induction reads with
  | nil => intro c t; simp
  | cons f rest ih =>
    intro c t
    by_cases hc : c < 1000
    · have hsub : 1000 - c = (1000 - (c + 1)) + 1 := by omega
      rw [hsub, List.take_succ_cons]
      cases f with
      | none => simp [track_loop, hc]
      | some d => simp [track_loop, hc, ih (c + 1)]
    · have hsub : 1000 - c = 0 := by omega
      rw [hsub, List.take_zero]
      simp [track_loop, hc]

/-- The loop counter never exceeds 1000: it is only incremented under the
`frame_counter < 1000` guard. -/
theorem track_loop_counter_le (vh : Int) :
    ∀ (reads : List (Option FrameDets)) (c : Nat) (t : TrackerState),
      c ≤ 1000 → (track_loop vh reads c t).2 ≤ 1000 := by
  intro reads
  induction reads with
  | nil =>
    intro c t hc
    unfold track_loop
    split <;> simp <;> omega
  | cons f rest ih =>
    intro c t hc
    by_cases h : c < 1000
    · cases f with
      | none => simp [track_loop, h]; omega
      | some d =>
        have := ih (c + 1) (process_frame vh (c + 1) d t) (by omega)
        simpa [track_loop, h] using this
    · simp [track_loop, h]
      omega

/-- C10: the ingestion loop of `track` makes at most 1000 read attempts —
every read outcome past the first 1000 is irrelevant to the result, even
if the video still has frames — and the run then persists the accumulated
entities of the final registry state. -/
theorem c10_frame_cap (vh : Int) (reads : List (Option FrameDets)) :
    track vh reads = track vh (reads.take 1000) ∧
    (track_loop vh reads 0 { circles := [], rectangles := [] }).2 ≤ 1000 ∧
    track vh reads =
      save_all
        (track_loop vh reads 0 { circles := [], rectangles := [] }).1 := by
  refine ⟨?_, track_loop_counter_le vh reads 0 _ (by omega), rfl⟩
  unfold track
  rw [track_loop_take vh reads 0]

end Lxns
